import Mathlib

set_option maxRecDepth 100000

/- Verification of BoursoBankScrap.py against its natural-language specification.

   Shallow embedding conventions:
   * HTML parsing results are modelled at the DOM level: the login page is a list
     of input elements (name attribute plus optional value attribute), the keypad
     fragment is a list of clickable key elements (data-matrix-key label plus the
     src string of the nested img element when one is present), and regex
     extraction results on raw bodies (the __brs_mit cookie, the
     matrixRandomChallenge value) are carried as the Option-valued results the
     regex search would produce.
   * The network is an environment of responses (statuses, bodies, parsed pages);
     the run is a pure function of its inputs and that environment, returning a
     trace recording the outcome, whether the export request was issued and with
     which account, whether the export body was handed to the CSV parser, which
     output file was written and whether the last-run timestamp was updated.
   * Machine/library errors (the NameError in the keypad loop, the TypeError of
     datetime.fromisoformat on a non-str argument, the ValueError of the
     credential encoder) are modelled with Except. -/

/-- Substring test on lists of characters: Python's `needle in hay`. -/
def listContains (needle : List Char) : List Char → Bool
  | [] => needle.isEmpty
  | c :: cs => needle.isPrefixOf (c :: cs) || listContains needle cs

/-- Python's substring containment `needle in hay` for strings. -/
def strContains (hay needle : String) : Bool :=
  listContains needle.data hay.data

/-- Python string truthiness of an optional attribute value: the attribute must be
    present and non-empty.  Used for BeautifulSoup's `el.get("value")` checks. -/
def attrTruthy : Option String → Option String
  | some s => if s = "" then none else some s
  | none => none

/-- Python's `str.isdigit()`: non-empty and every character a digit. -/
def pyIsDigit (s : String) : Bool :=
  !s.data.isEmpty && s.data.all Char.isDigit

/-- Python's `str.strip()` (whitespace at both ends removed; modelled over the
    usual ASCII whitespace characters). -/
def pyStrip (s : String) : String :=
  String.mk (((s.data.dropWhile Char.isWhitespace).reverse.dropWhile
    Char.isWhitespace).reverse)

/-- Python's `str.startswith(pre)`. -/
def pyStartsWith (s pre : String) : Bool :=
  pre.data.isPrefixOf s.data

/-- An `<input>` element of the login page: its name attribute and its optional
    value attribute (BeautifulSoup's `soup.find("input", attrs=...)` searches
    these). -/
structure InputElem where
  name : String
  value : Option String
deriving DecidableEq, Repr

/-- `extract_token_from_login` (BoursoBankScrap.py lines 58-70), at DOM level:
    first input whose name attribute matches the regex `form\[_token\]`
    (a `re.search`, i.e. substring match) and has a truthy value; otherwise the
    first input named exactly `_token` with a truthy value; otherwise `none`. -/
def extract_token_from_login (inputs : List InputElem) : Option String :=
  match (inputs.find? (fun i => strContains i.name "form[_token]")).bind
      (fun i => attrTruthy i.value) with
  | some v => some v
  | none =>
    (inputs.find? (fun i => i.name = "_token")).bind (fun i => attrTruthy i.value)

/-- The static signature table `B64_SVG_LEN_MAP` (lines 41-52): observed img-src
    length to the digit it encodes. -/
def B64_SVG_LEN_MAP : List (Nat × Nat) :=
  [(419, 0), (259, 1), (1131, 2), (979, 3), (763, 4),
   (839, 5), (1075, 6), (1359, 7), (1023, 8), (1047, 9)]

/-- Lookup in a signature table: Python's `B64_SVG_LEN_MAP.get(path_len)`. -/
def svgLenLookup (table : List (Nat × Nat)) (l : Nat) : Option Nat :=
  (table.find? (fun p => p.1 = l)).map Prod.snd

/-- A clickable key of the keypad fragment (an element carrying
    `data-matrix-key`): its label attribute, and the src string of the nested
    `<img>` element when one is present (`none` models `btn.find("img")`
    returning no element). -/
structure KeypadButton where
  matrixKey : String
  img : Option String
deriving DecidableEq, Repr

/-- Removal of a key from an association list (helper for dict assignment). -/
def eraseKey (m : List (Nat × String)) (k : Nat) : List (Nat × String) :=
  m.filter (fun p => p.1 ≠ k)

/-- Python dict assignment `m[k] = v`: the new binding replaces any old one. -/
def insertAL (m : List (Nat × String)) (k : Nat) (v : String) : List (Nat × String) :=
  (k, v) :: eraseKey m k

/-- Python dict lookup `m.get(k)`. -/
def lookupAL (m : List (Nat × String)) (k : Nat) : Option String :=
  (m.find? (fun p => p.1 = k)).map Prod.snd

/-- The key set of the mapping (`m.keys()`); its length is Python's `len(m)`. -/
def keysAL (m : List (Nat × String)) : List Nat :=
  m.map Prod.fst

/-- The uncaught runtime error of the keypad decode loop: `path_len` referenced
    before assignment when the very first key has no nested image. -/
inductive PyRunErr where
  | nameError
deriving DecidableEq, Repr

/-- The keypad decode loop (lines 158-172).  State: the mapping built so far and
    the current value of the Python variable `path_len` (`none` while it is still
    unassigned).  A key with an image overwrites `path_len` with the length of
    its src; a key without an image keeps the previous value — and if no
    previous value exists, evaluating `B64_SVG_LEN_MAP.get(path_len)` raises
    NameError.  A signature absent from the table is skipped (`continue`);
    otherwise `mapping[int(digit)] = matrix_key`. -/
def decodeLoop (table : List (Nat × Nat)) :
    List KeypadButton → List (Nat × String) → Option Nat →
    Except PyRunErr (List (Nat × String))
  | [], m, _ => .ok m
  | b :: bs, m, pathLen =>
    match (match b.img with | some src => some src.length | none => pathLen) with
    | none => .error .nameError
    | some pl =>
      match svgLenLookup table pl with
      | none => decodeLoop table bs m (some pl)
      | some d => decodeLoop table bs (insertAL m d b.matrixKey) (some pl)

/-- The keypad decoder: the loop started with an empty mapping and `path_len`
    unassigned. -/
def decodeKeypad (table : List (Nat × Nat)) (btns : List KeypadButton) :
    Except PyRunErr (List (Nat × String)) :=
  decodeLoop table btns [] none

/-- The digit a key resolves to when considered on its own: the table lookup of
    its own image's src length. -/
def resolveBtn (table : List (Nat × Nat)) (b : KeypadButton) : Option Nat :=
  b.img.bind (fun src => svgLenLookup table src.length)

/-- All digits resolved by the keys of a fragment (with multiplicity, in order). -/
def resolvedDigits (table : List (Nat × Nat)) (btns : List KeypadButton) : List Nat :=
  btns.filterMap (resolveBtn table)

/-- Errors of `build_encoded_password`: `int(ch)` on a non-digit, or the raised
    `ValueError("No mapping for digit d.")`. -/
inductive EncodeError where
  | nonDigit (ch : Char)
  | noMapping (d : Nat)
deriving DecidableEq, Repr

/-- Python's `int(ch)` on a single character. -/
def pyIntChar (ch : Char) : Except EncodeError Nat :=
  if ch.isDigit then .ok (ch.toNat - 48) else .error (.nonDigit ch)

/-- The group list built by the loop of `build_encoded_password` (lines 78-84):
    for each password character in order, its digit's group; the first digit
    without a mapping raises. -/
def build_groups (m : List (Nat × String)) :
    List Char → Except EncodeError (List String)
  | [] => .ok []
  | ch :: rest =>
    match pyIntChar ch with
    | .error e => .error e
    | .ok d =>
      match lookupAL m d with
      | none => .error (.noMapping d)
      | some g => (build_groups m rest).map (fun gs => g :: gs)

/-- `build_encoded_password` (lines 72-85): the groups joined with `"|"`. -/
def build_encoded_password (numeric_password : String) (digit_to_group : List (Nat × String)) :
    Except EncodeError String :=
  (build_groups digit_to_group numeric_password.data).map
    (fun gs => String.intercalate "|" gs)

/-- The account-discovery logic of main's Step 4 (lines 244-270).  The export
    parameter starts as the caller-supplied account; when the budget page answers
    with status 200, a truthy value of the account-selector input overrides it,
    else a truthy value of the first selectable option does.  `accInput`/`firstOpt`
    are the DOM-level results of the two BeautifulSoup searches: `none` when no
    element was found, `some v` when an element with value attribute `v` was. -/
def resolveAccount (account : String) (budgetStatus : Nat)
    (accInput firstOpt : Option (Option String)) : String :=
  if budgetStatus = 200 then
    match attrTruthy accInput.join with
    | some v => v
    | none =>
      match attrTruthy firstOpt.join with
      | some v => v
      | none => account
  else account

/-- The environment of one run: every network response main would receive, with
    HTML bodies already at DOM level where main parses them. -/
structure NetEnv where
  login1Status : Nat
  /-- Result of `re.search(r'__brs_mit\s*=\s*([^";\s]+)', resp_login_1.text)`. -/
  brsMit : Option String
  login2Status : Nat
  /-- The input elements of the second login page load. -/
  login2Inputs : List InputElem
  clavierStatus : Nat
  /-- The `[data-matrix-key]` elements of the keypad fragment. -/
  clavierButtons : List KeypadButton
  /-- Result of the matrixRandomChallenge regex on the keypad fragment body. -/
  clavierChallenge : Option String
  postStatus : Nat
  postBody : String
  budgetStatus : Nat
  /-- DOM search result for the account-selector input of the budget page. -/
  budgetAccInput : Option (Option String)
  /-- DOM search result for the first selectable account option. -/
  budgetFirstOption : Option (Option String)
  csvStatus : Nat
  csvContentType : String
  csvBody : String
deriving DecidableEq, Repr

/-- How one run of `main` ended. -/
inductive RunOutcome where
  | badClient
  | badPassword
  | httpError (step : Nat)
  | cookieNotFound
  | decodeNameError
  | encodeFailed (e : EncodeError)
  | loginFailed (snippet : String)
  | noAccount
  | csvFailed (snippet : String)
  | csvRejectedHtml
  | finished (outfile : String)
deriving DecidableEq, Repr

/-- Observable trace of one run of `main`: the outcome, whether the export GET
    was issued and with which account parameter, whether the export body was
    handed to the CSV parser, which output file was written, and whether the
    last-run timestamp file was updated. -/
structure RunTrace where
  outcome : RunOutcome
  exportAttempted : Bool
  exportAccount : Option String
  csvParsed : Bool
  outputWritten : Option String
  timestampWritten : Bool
deriving DecidableEq, Repr

/-- A trace that aborted before the export request, with nothing written. -/
def mkTrace (o : RunOutcome) : RunTrace :=
  { outcome := o, exportAttempted := false, exportAccount := none,
    csvParsed := false, outputWritten := none, timestampWritten := false }

/-- Output artifact name (line 307), with the dates already `%Y%m%d`-formatted. -/
def outFileName (acct fromYmd toYmd : String) : String :=
  "boursorama_transactions_" ++ acct ++ "_" ++ fromYmd ++ "_" ++ toYmd ++ ".csv"

/-- Step 4's export fetch and validation (lines 277-315): a non-200 status is a
    fetch failure with a 500-character snippet; a 200 response whose content type
    does not contain `text/csv` and whose stripped body starts with `<` is
    rejected as a disguised error page; otherwise the body is parsed and the
    output file and timestamp are written. -/
def csvStage (acct fromYmd toYmd : String) (env : NetEnv) : RunTrace :=
  if env.csvStatus ≠ 200 then
    { outcome := .csvFailed (env.csvBody.take 500), exportAttempted := true,
      exportAccount := some acct, csvParsed := false, outputWritten := none,
      timestampWritten := false }
  else if strContains env.csvContentType "text/csv" = false ∧
      pyStartsWith (pyStrip env.csvBody) "<" = true then
    { outcome := .csvRejectedHtml, exportAttempted := true,
      exportAccount := some acct, csvParsed := false, outputWritten := none,
      timestampWritten := false }
  else
    { outcome := .finished (outFileName acct fromYmd toYmd), exportAttempted := true,
      exportAccount := some acct, csvParsed := true,
      outputWritten := some (outFileName acct fromYmd toYmd),
      timestampWritten := true }

/-- Account discovery followed by the export fetch (lines 244-274): an empty
    resolved identifier aborts before the export request. -/
def accountStage (account fromYmd toYmd : String) (env : NetEnv) : RunTrace :=
  let acct := resolveAccount account env.budgetStatus env.budgetAccInput env.budgetFirstOption
  if acct = "" then mkTrace .noAccount
  else csvStage acct fromYmd toYmd env

/-- The login POST check and what follows (lines 227-232): a status other than
    200 or 302 is a login failure carrying a 400-character snippet of the
    response body; otherwise the run proceeds to account discovery and export. -/
def loginStage (account fromYmd toYmd : String) (env : NetEnv) : RunTrace :=
  if ¬(env.postStatus = 200 ∨ env.postStatus = 302) then
    mkTrace (.loginFailed (env.postBody.take 400))
  else accountStage account fromYmd toYmd env

/-- The source's `main` (lines 88-315) — named `pyMain` here because Lean
    reserves `main` — as a pure function of its arguments, the pre-formatted
    date strings and the network environment.  Mirrors the source order: input
    validation, the dry-run branch, the two login page loads (a missing
    `__brs_mit` regex match raises ValueError), token extraction (a missing token
    is only logged, never fatal), the keypad fetch and decode, credential
    encoding (an encoding error aborts), the login POST, account discovery, and
    the export fetch.  CSV parsing of an accepted export body is modelled as
    total, matching the claims' scope. -/
def pyMain (dry_run : Bool) (client_number numeric_password account : String)
    (fromYmd toYmd : String) (env : NetEnv) : RunTrace :=
  if pyIsDigit client_number = false then mkTrace .badClient
  else if ¬(pyIsDigit numeric_password = true ∧ numeric_password.length = 8) then
    mkTrace .badPassword
  else if dry_run then
    { outcome := .finished (outFileName ("dry_run_" ++ account) fromYmd toYmd),
      exportAttempted := false, exportAccount := none, csvParsed := false,
      outputWritten := some (outFileName ("dry_run_" ++ account) fromYmd toYmd),
      timestampWritten := true }
  else if 400 ≤ env.login1Status then mkTrace (.httpError 1)
  else
    match env.brsMit with
    | none => mkTrace .cookieNotFound
    | some _ =>
      if 400 ≤ env.login2Status then mkTrace (.httpError 2)
      else
        -- token := extract_token_from_login(...); when none, only a debug line
        -- is emitted and the flow continues to the keypad step
        let _token := extract_token_from_login env.login2Inputs
        if 400 ≤ env.clavierStatus then mkTrace (.httpError 3)
        else
          match decodeKeypad B64_SVG_LEN_MAP env.clavierButtons with
          | .error _ => mkTrace .decodeNameError
          | .ok mapping =>
            -- a mapping with fewer than 10 digits is only logged; the flow
            -- continues and encoding decides the failure
            match build_encoded_password numeric_password mapping with
            | .error e => mkTrace (.encodeFailed e)
            | .ok _encoded =>
              -- the challenge value is only logged when missing (line 204)
              let _challenge := env.clavierChallenge
              loginStage account fromYmd toYmd env

/-- Python exception classes relevant to the driver. -/
inductive PyError where
  | typeError
  | valueError
deriving DecidableEq, Repr

/-- A dynamically typed argument of `datetime.fromisoformat`: either a str or a
    datetime value (timestamps abstracted to an integer day count). -/
inductive PyVal where
  | str (s : String)
  | dt (t : Int)
deriving DecidableEq, Repr

/-- CPython's `datetime.fromisoformat`: the argument must be a str, anything
    else raises TypeError before any parsing; string parsing itself (which can
    only raise ValueError) is abstracted as the `parseIso` parameter. -/
def datetime_fromisoformat (parseIso : String → Except Unit Int) :
    PyVal → Except PyError Int
  | .str s => (parseIso s).mapError (fun _ => PyError.valueError)
  | .dt _ => .error .typeError

/-- Inputs of the `__main__` driver block: the argument vector (argv[0]
    included), today's timestamp, and the last-run save file state. -/
structure DriverEnv where
  argv : List String
  today : Int
  saveExists : Bool
  saveContent : String
deriving DecidableEq, Repr

/-- Observable trace of the driver: the uncaught exception that terminated it
    (if any), and which of its stages were reached. -/
structure DriverTrace where
  raised : Option PyError
  argvChecked : Bool
  throttleChecked : Bool
  mainCalled : Bool
deriving DecidableEq, Repr

/-- The `__main__` block (lines 317-353).  Its second print calls
    `datetime.fromisoformat(datetime.today())` — on a datetime value, not a str —
    so the TypeError path short-circuits everything after it: the argv-length
    check, the throttle check on the save file, and the call of `main` (hence
    any network activity).  The later stages are still modelled for the case the
    first statement were to succeed: usage exit on argv length ≠ 5, then the
    30-day throttle (an unparsable save date is reported and ignored), then the
    call of `main`. -/
def driverMain (parseIso : String → Except Unit Int) (env : DriverEnv) : DriverTrace :=
  match datetime_fromisoformat parseIso (.dt env.today) with
  | .error e =>
    { raised := some e, argvChecked := false, throttleChecked := false,
      mainCalled := false }
  | .ok _ =>
    if env.argv.length ≠ 5 then
      { raised := none, argvChecked := true, throttleChecked := false,
        mainCalled := false }
    else if env.saveExists then
      match parseIso (pyStrip env.saveContent) with
      | .ok prev =>
        if env.today - prev < 30 then
          { raised := none, argvChecked := true, throttleChecked := true,
            mainCalled := false }
        else
          { raised := none, argvChecked := true, throttleChecked := true,
            mainCalled := true }
      | .error _ =>
        { raised := none, argvChecked := true, throttleChecked := true,
          mainCalled := true }
    else
      { raised := none, argvChecked := true, throttleChecked := false,
        mainCalled := true }

/-- A string of a given length (stands for an img src of that length). -/
def strOfLen (n : Nat) : String :=
  String.mk (List.replicate n 'x')

/-- A keypad fragment exposing all ten keys, each with a resolvable signature. -/
def goodButtons : List KeypadButton :=
  [⟨"KEY0", some (strOfLen 419)⟩, ⟨"KEY1", some (strOfLen 259)⟩,
   ⟨"KEY2", some (strOfLen 1131)⟩, ⟨"KEY3", some (strOfLen 979)⟩,
   ⟨"KEY4", some (strOfLen 763)⟩, ⟨"KEY5", some (strOfLen 839)⟩,
   ⟨"KEY6", some (strOfLen 1075)⟩, ⟨"KEY7", some (strOfLen 1359)⟩,
   ⟨"KEY8", some (strOfLen 1023)⟩, ⟨"KEY9", some (strOfLen 1047)⟩]

/-- A degraded fragment: only digits 1 and 2 resolve, one key has an unknown
    signature. -/
def partialButtons : List KeypadButton :=
  [⟨"KEY1", some (strOfLen 259)⟩, ⟨"KEY2", some (strOfLen 1131)⟩,
   ⟨"KEYX", some (strOfLen 5)⟩]

/-- The mapping `decodeKeypad` produces on `goodButtons`. -/
def goodMapping : List (Nat × String) :=
  [(9, "KEY9"), (8, "KEY8"), (7, "KEY7"), (6, "KEY6"), (5, "KEY5"),
   (4, "KEY4"), (3, "KEY3"), (2, "KEY2"), (1, "KEY1"), (0, "KEY0")]

/-- The mapping of the spec's end-to-end credential-encoding scenario. -/
def exampleMapping : List (Nat × String) :=
  [(1, "AAA"), (2, "BBB"), (3, "CCC"), (4, "DDD"),
   (5, "EEE"), (6, "FFF"), (7, "GGG"), (8, "HHH")]

/-- An environment where every stage succeeds. -/
def goodEnv : NetEnv :=
  { login1Status := 200, brsMit := some "BRSMIT",
    login2Status := 200, login2Inputs := [⟨"form[_token]", some "TOK"⟩],
    clavierStatus := 200, clavierButtons := goodButtons,
    clavierChallenge := some "CHAL",
    postStatus := 200, postBody := "",
    budgetStatus := 200, budgetAccInput := some (some "ACC123"),
    budgetFirstOption := none,
    csvStatus := 200, csvContentType := "text/csv; charset=UTF-8",
    csvBody := "dateOp;label;amount" }

/-! Helper lemmas about the association-list model of Python dicts. -/

lemma mem_keysAL_insertAL (m : List (Nat × String)) (k : Nat) (v : String) (d : Nat) :
    d ∈ keysAL (insertAL m k v) ↔ d = k ∨ d ∈ keysAL m := by
  simp only [keysAL, insertAL, eraseKey, List.map_cons, List.mem_cons, List.mem_map,
    List.mem_filter]
  constructor
  · rintro (h | ⟨p, ⟨hp, _⟩, rfl⟩)
    · exact Or.inl h
    · exact Or.inr ⟨p, hp, rfl⟩
  · rintro (h | ⟨p, hp, rfl⟩)
    · exact Or.inl h
    · by_cases hpk : p.1 = k
      · exact Or.inl hpk
      · exact Or.inr ⟨p, ⟨hp, by simpa using hpk⟩, rfl⟩

lemma nodup_keysAL_insertAL (m : List (Nat × String)) (k : Nat) (v : String)
    (h : (keysAL m).Nodup) : (keysAL (insertAL m k v)).Nodup := by
  have hsub : List.Sublist ((eraseKey m k).map Prod.fst) (m.map Prod.fst) :=
    (List.filter_sublist m).map Prod.fst
  refine List.nodup_cons.mpr ⟨?_, hsub.nodup h⟩
  intro hk
  obtain ⟨p, hp, hpk⟩ := List.mem_map.mp hk
  have hne := (List.mem_filter.mp hp).2
  simp only [decide_not, Bool.not_eq_true', decide_eq_false_iff_not] at hne
  exact hne hpk

lemma lookupAL_eq_none_iff (m : List (Nat × String)) (k : Nat) :
    lookupAL m k = none ↔ k ∉ keysAL m := by
  simp only [lookupAL, keysAL, Option.map_eq_none', List.find?_eq_none, List.mem_map,
    decide_eq_true_eq]
  constructor
  · rintro h ⟨p, hp, rfl⟩
    exact h p hp rfl
  · rintro h p hp hpk
    exact h ⟨p, hp, hpk⟩

lemma lookupAL_insertAL_self (m : List (Nat × String)) (k : Nat) (v : String) :
    lookupAL (insertAL m k v) k = some v := by
  unfold lookupAL insertAL
  rw [List.find?_cons_of_pos _ (by simp)]
  rfl

/-! The keypad decode loop: when every key exposes an image, the loop succeeds
    and the produced mapping's keys are exactly the digits resolved by the keys. -/

lemma decodeLoop_all_images (table : List (Nat × Nat)) :
    ∀ (btns : List KeypadButton) (m : List (Nat × String)) (l0 : Option Nat),
    (∀ b ∈ btns, b.img.isSome = true) →
    ∃ m', decodeLoop table btns m l0 = .ok m' ∧
      (∀ d, d ∈ keysAL m' ↔ (d ∈ keysAL m ∨ d ∈ resolvedDigits table btns)) ∧
      ((keysAL m).Nodup → (keysAL m').Nodup) := by
  intro btns
  induction btns with
  | nil =>
    intro m l0 _
    exact ⟨m, rfl, by simp [resolvedDigits], fun hn => hn⟩
  | cons b bs ih =>
    intro m l0 h
    obtain ⟨src, hsrc⟩ := Option.isSome_iff_exists.mp (h b (List.mem_cons_self b bs))
    have hb : ∀ x ∈ bs, x.img.isSome = true := fun x hx => h x (List.mem_cons_of_mem b hx)
    have hrb : resolveBtn table b = svgLenLookup table src.length := by
      simp [resolveBtn, hsrc]
    cases hres : svgLenLookup table src.length with
    | none =>
      obtain ⟨m', he, hmem, hnd⟩ := ih m (some src.length) hb
      refine ⟨m', ?_, ?_, hnd⟩
      · simp [decodeLoop, hsrc, hres, he]
      · intro d
        rw [hmem]
        simp [resolvedDigits, List.filterMap_cons, hrb, hres]
    | some d0 =>
      obtain ⟨m', he, hmem, hnd⟩ := ih (insertAL m d0 b.matrixKey) (some src.length) hb
      refine ⟨m', ?_, ?_, fun hn => hnd (nodup_keysAL_insertAL m d0 b.matrixKey hn)⟩
      · simp [decodeLoop, hsrc, hres, he]
      · intro d
        rw [hmem, mem_keysAL_insertAL]
        simp only [resolvedDigits, List.filterMap_cons, hrb, hres, List.mem_cons]
        tauto

/-! The credential encoder: success shape and failure characterisation. -/

lemma exceptMap_eq_error {E A B : Type} (f : A → B) (r : Except E A) (e : E) :
    r.map f = .error e ↔ r = .error e := by
  cases r <;> simp [Except.map]

lemma build_groups_ok_spec (m : List (Nat × String)) :
    ∀ chars : List Char, (∀ ch ∈ chars, ch.isDigit = true) →
    (∀ ch ∈ chars, (lookupAL m (ch.toNat - 48)).isSome = true) →
    ∃ gs, build_groups m chars = .ok gs ∧ gs.length = chars.length ∧
      ∀ i : Nat, gs.get? i = (chars.get? i).bind (fun ch => lookupAL m (ch.toNat - 48)) := by
  intro chars
  induction chars with
  | nil =>
    intro _ _
    exact ⟨[], rfl, rfl, by intro i; cases i <;> simp⟩
  | cons ch rest ih =>
    intro hd hm
    have hchd : ch.isDigit = true := hd ch (List.mem_cons_self ch rest)
    obtain ⟨g, hg⟩ := Option.isSome_iff_exists.mp (hm ch (List.mem_cons_self ch rest))
    obtain ⟨gs, hgs, hlen, hget⟩ :=
      ih (fun c hc => hd c (List.mem_cons_of_mem ch hc))
        (fun c hc => hm c (List.mem_cons_of_mem ch hc))
    refine ⟨g :: gs, ?_, by simp [hlen], ?_⟩
    · simp [build_groups, pyIntChar, hchd, hg, hgs, Except.map]
    · intro i
      cases i with
      | zero => simp [hg]
      | succ n => simpa using hget n

lemma build_groups_error_iff (m : List (Nat × String)) :
    ∀ chars : List Char, (∀ ch ∈ chars, ch.isDigit = true) →
    ((∃ d, build_groups m chars = .error (.noMapping d)) ↔
      ∃ ch ∈ chars, (ch.toNat - 48) ∉ keysAL m) := by
  intro chars
  induction chars with
  | nil => intro _; simp [build_groups]
  | cons ch rest ih =>
    intro hd
    have hchd : ch.isDigit = true := hd ch (List.mem_cons_self ch rest)
    have ihr := ih (fun c hc => hd c (List.mem_cons_of_mem ch hc))
    cases hlk : lookupAL m (ch.toNat - 48) with
    | none =>
      constructor
      · intro _
        exact ⟨ch, List.mem_cons_self ch rest, (lookupAL_eq_none_iff m _).mp hlk⟩
      · intro _
        exact ⟨ch.toNat - 48, by simp [build_groups, pyIntChar, hchd, hlk]⟩
    | some g =>
      have hmem : (ch.toNat - 48) ∈ keysAL m := by
        by_contra hno
        rw [← lookupAL_eq_none_iff] at hno
        rw [hno] at hlk
        exact Option.noConfusion hlk
      have hred : ∀ d, build_groups m (ch :: rest) = .error (.noMapping d) ↔
          build_groups m rest = .error (.noMapping d) := by
        intro d
        simp only [build_groups, pyIntChar, hchd, if_true, hlk]
        exact exceptMap_eq_error _ _ _
      constructor
      · rintro ⟨d, hdd⟩
        obtain ⟨c, hc, hcm⟩ := ihr.mp ⟨d, (hred d).mp hdd⟩
        exact ⟨c, List.mem_cons_of_mem ch hc, hcm⟩
      · rintro ⟨c, hc, hcm⟩
        rcases List.mem_cons.mp hc with rfl | hc2
        · exact absurd hmem hcm
        · obtain ⟨d, hdd⟩ := ihr.mpr ⟨c, hc2, hcm⟩
          exact ⟨d, (hred d).mpr hdd⟩

lemma build_encoded_password_error_iff (pw : String) (m : List (Nat × String))
    (hd : ∀ ch ∈ pw.data, ch.isDigit = true) :
    (∃ d, build_encoded_password pw m = .error (.noMapping d)) ↔
      ∃ ch ∈ pw.data, (ch.toNat - 48) ∉ keysAL m := by
  rw [← build_groups_error_iff m pw.data hd]
  unfold build_encoded_password
  constructor
  · rintro ⟨d, hdd⟩
    exact ⟨d, (exceptMap_eq_error _ _ _).mp hdd⟩
  · rintro ⟨d, hdd⟩
    exact ⟨d, (exceptMap_eq_error _ _ _).mpr hdd⟩

lemma resolveBtn_lt_of_table (table : List (Nat × Nat)) (htv : ∀ p ∈ table, p.2 < 10)
    (b : KeypadButton) (d : Nat) (hbd : resolveBtn table b = some d) : d < 10 := by
  unfold resolveBtn at hbd
  cases hib : b.img with
  | none => rw [hib] at hbd; exact Option.noConfusion hbd
  | some src =>
    rw [hib, Option.some_bind] at hbd
    unfold svgLenLookup at hbd
    obtain ⟨p, hfind, hsnd⟩ := Option.map_eq_some'.mp hbd
    exact hsnd ▸ htv p (List.mem_of_find?_eq_some hfind)

/-! Stage-reduction lemmas for `pyMain`. -/

lemma pyMain_reaches_login
    (c p a f t : String) (env : NetEnv) (bv : String) (m : List (Nat × String)) (enc : String)
    (hc : pyIsDigit c = true) (hp : pyIsDigit p = true) (h8 : p.length = 8)
    (h1 : env.login1Status < 400) (hbrs : env.brsMit = some bv)
    (h2 : env.login2Status < 400) (h3 : env.clavierStatus < 400)
    (hdec : decodeKeypad B64_SVG_LEN_MAP env.clavierButtons = .ok m)
    (henc : build_encoded_password p m = .ok enc) :
    pyMain false c p a f t env = loginStage a f t env := by
  have e1 : ¬ 400 ≤ env.login1Status := by omega
  have e2 : ¬ 400 ≤ env.login2Status := by omega
  have e3 : ¬ 400 ≤ env.clavierStatus := by omega
  simp [pyMain, hc, hp, h8, hbrs, e1, e2, e3, hdec, henc]

lemma pyMain_encode_error
    (c p a f t : String) (env : NetEnv) (bv : String) (m : List (Nat × String)) (e : EncodeError)
    (hc : pyIsDigit c = true) (hp : pyIsDigit p = true) (h8 : p.length = 8)
    (h1 : env.login1Status < 400) (hbrs : env.brsMit = some bv)
    (h2 : env.login2Status < 400) (h3 : env.clavierStatus < 400)
    (hdec : decodeKeypad B64_SVG_LEN_MAP env.clavierButtons = .ok m)
    (henc : build_encoded_password p m = .error e) :
    pyMain false c p a f t env = mkTrace (.encodeFailed e) := by
  have e1 : ¬ 400 ≤ env.login1Status := by omega
  have e2 : ¬ 400 ≤ env.login2Status := by omega
  have e3 : ¬ 400 ≤ env.clavierStatus := by omega
  simp [pyMain, hc, hp, h8, hbrs, e1, e2, e3, hdec, henc]

lemma loginStage_post_ok (a f t : String) (env : NetEnv)
    (hpost : env.postStatus = 200 ∨ env.postStatus = 302) :
    loginStage a f t env = accountStage a f t env := by
  unfold loginStage
  rw [if_neg (not_not_intro hpost)]

lemma loginStage_post_fail (a f t : String) (env : NetEnv)
    (hpost : ¬(env.postStatus = 200 ∨ env.postStatus = 302)) :
    loginStage a f t env = mkTrace (.loginFailed (env.postBody.take 400)) := by
  unfold loginStage
  rw [if_pos hpost]

lemma accountStage_empty (a f t : String) (env : NetEnv)
    (hE : resolveAccount a env.budgetStatus env.budgetAccInput env.budgetFirstOption = "") :
    accountStage a f t env = mkTrace .noAccount := by
  simp only [accountStage]
  rw [if_pos hE]

lemma accountStage_nonempty (a f t : String) (env : NetEnv)
    (hE : resolveAccount a env.budgetStatus env.budgetAccInput env.budgetFirstOption ≠ "") :
    accountStage a f t env =
      csvStage (resolveAccount a env.budgetStatus env.budgetAccInput env.budgetFirstOption)
        f t env := by
  simp only [accountStage]
  rw [if_neg hE]

lemma csvStage_fail_status (acct f t : String) (env : NetEnv) (h : env.csvStatus ≠ 200) :
    csvStage acct f t env =
      { outcome := .csvFailed (env.csvBody.take 500), exportAttempted := true,
        exportAccount := some acct, csvParsed := false, outputWritten := none,
        timestampWritten := false } := by
  unfold csvStage
  rw [if_pos h]

lemma csvStage_reject_html (acct f t : String) (env : NetEnv) (h200 : env.csvStatus = 200)
    (hct : strContains env.csvContentType "text/csv" = false)
    (hlt : pyStartsWith (pyStrip env.csvBody) "<" = true) :
    csvStage acct f t env =
      { outcome := .csvRejectedHtml, exportAttempted := true,
        exportAccount := some acct, csvParsed := false, outputWritten := none,
        timestampWritten := false } := by
  unfold csvStage
  rw [if_neg (by simp [h200]), if_pos ⟨hct, hlt⟩]

lemma csvStage_accept (acct f t : String) (env : NetEnv) (h200 : env.csvStatus = 200)
    (hok : strContains env.csvContentType "text/csv" = true ∨
      pyStartsWith (pyStrip env.csvBody) "<" = false) :
    csvStage acct f t env =
      { outcome := .finished (outFileName acct f t), exportAttempted := true,
        exportAccount := some acct, csvParsed := true,
        outputWritten := some (outFileName acct f t), timestampWritten := true } := by
  unfold csvStage
  rw [if_neg (by simp [h200]), if_neg (by rcases hok with h | h <;> simp [h])]

lemma csvStage_exportAccount (acct f t : String) (env : NetEnv) :
    (csvStage acct f t env).exportAccount = some acct := by
  unfold csvStage
  split
  · rfl
  · split <;> rfl

lemma accountStage_not_loginFailed (a f t : String) (env : NetEnv) (s : String) :
    (accountStage a f t env).outcome ≠ .loginFailed s := by
  by_cases hE : resolveAccount a env.budgetStatus env.budgetAccInput env.budgetFirstOption = ""
  · rw [accountStage_empty a f t env hE]
    simp [mkTrace]
  · rw [accountStage_nonempty a f t env hE]
    unfold csvStage
    split
    · simp
    · split <;> simp

lemma pyMain_shape (dr : Bool) (c p a f t : String) (env : NetEnv) :
    pyMain dr c p a f t env = loginStage a f t env ∨
      (pyMain dr c p a f t env).exportAttempted = false := by
  simp only [pyMain]
  repeat' split
  all_goals first
    | exact Or.inl rfl
    | exact Or.inr rfl

lemma pyMain_export_nonempty (dr : Bool) (c p a f t : String) (env : NetEnv)
    (h : (pyMain dr c p a f t env).exportAttempted = true) :
    ∃ acct, (pyMain dr c p a f t env).exportAccount = some acct ∧ acct ≠ "" := by
  rcases pyMain_shape dr c p a f t env with hEq | hF
  · by_cases hpost : env.postStatus = 200 ∨ env.postStatus = 302
    · rw [hEq, loginStage_post_ok a f t env hpost] at h ⊢
      by_cases hE : resolveAccount a env.budgetStatus env.budgetAccInput env.budgetFirstOption = ""
      · rw [accountStage_empty a f t env hE] at h
        simp [mkTrace] at h
      · rw [accountStage_nonempty a f t env hE] at h ⊢
        exact ⟨_, csvStage_exportAccount _ _ _ _, hE⟩
    · rw [hEq, loginStage_post_fail a f t env hpost] at h
      simp [mkTrace] at h
  · rw [hF] at h
    exact absurd h (by simp)

/-- Claim C5: for every signature table containing exactly the ten digits 0-9 and
    every keypad fragment exposing all ten corresponding keys (each with a
    resolvable image signature), the Keypad Decoder produces a mapping of size
    exactly 10 whose key set is the digits 0 through 9. -/
theorem full_keypad_decodes_ten_digits
    (table : List (Nat × Nat)) (btns : List KeypadButton)
    (htv : ∀ p ∈ table, p.2 < 10)
    (hcovT : ∀ d < 10, ∃ p ∈ table, p.2 = d)
    (hres : ∀ b ∈ btns, (resolveBtn table b).isSome = true)
    (hcov : ∀ d < 10, ∃ b ∈ btns, resolveBtn table b = some d) :
    ∃ m, decodeKeypad table btns = .ok m ∧ m.length = 10 ∧
      ∀ d, d ∈ keysAL m ↔ d < 10 := by
  have himg : ∀ b ∈ btns, b.img.isSome = true := by
    intro b hb
    have hr := hres b hb
    cases hib : b.img with
    | none => rw [resolveBtn, hib] at hr; exact absurd hr (by simp)
    | some _ => rfl
  obtain ⟨m, he, hmem, hnd⟩ := decodeLoop_all_images table btns [] none himg
  have hnodup : (keysAL m).Nodup := hnd (by simp [keysAL])
  have hmem10 : ∀ d, d ∈ keysAL m ↔ d < 10 := by
    intro d
    rw [hmem d]
    constructor
    · rintro (h0 | hR)
      · exact absurd h0 (by simp [keysAL])
      · obtain ⟨b, hb, hbd⟩ := List.mem_filterMap.mp hR
        exact resolveBtn_lt_of_table table htv b d hbd
    · intro hd
      obtain ⟨b, hb, hbd⟩ := hcov d hd
      exact Or.inr (List.mem_filterMap.mpr ⟨b, hb, hbd⟩)
  have h1 : (keysAL m).toFinset = Finset.range 10 := by
    ext d
    simp [List.mem_toFinset, hmem10 d, Finset.mem_range]
  have h2 : (keysAL m).toFinset.card = (keysAL m).length :=
    List.toFinset_card_of_nodup hnodup
  have h3 : m.length = (keysAL m).length := (List.length_map _ _).symm
  refine ⟨m, he, ?_, hmem10⟩
  rw [h3, ← h2, h1, Finset.card_range]

/-- Witness for C5: the full signature table of the source and a fragment
    exposing all ten keys. -/
theorem full_keypad_decodes_ten_digits_witness :
    (∀ p ∈ B64_SVG_LEN_MAP, p.2 < 10) ∧
    (∀ d < 10, ∃ p ∈ B64_SVG_LEN_MAP, p.2 = d) ∧
    (∀ b ∈ goodButtons, (resolveBtn B64_SVG_LEN_MAP b).isSome = true) ∧
    (∀ d < 10, ∃ b ∈ goodButtons, resolveBtn B64_SVG_LEN_MAP b = some d) ∧
    (∃ m, decodeKeypad B64_SVG_LEN_MAP goodButtons = .ok m ∧ m.length = 10 ∧
      ∀ d, d ∈ keysAL m ↔ d < 10) :=
  ⟨by decide, by decide, by decide, by decide,
    full_keypad_decodes_ten_digits B64_SVG_LEN_MAP goodButtons
      (by decide) (by decide) (by decide) (by decide)⟩

/-- Claim C4: when the keypad fragment yields fewer than 10 resolvable keys, the
    Keypad Decoder returns a mapping of that smaller size without failing, and
    the Credential Encoder fails with an unmappable-digit error — aborting the
    run with nothing written and no partially encoded credential — exactly when
    the PIN contains a digit absent from the mapping. -/
theorem degraded_mapping_encode_fails_late
    (table : List (Nat × Nat)) (btns : List KeypadButton) (pw : String)
    (himg : ∀ b ∈ btns, b.img.isSome = true)
    (hsz : ((resolvedDigits table btns).dedup).length < 10)
    (hpw : ∀ ch ∈ pw.data, ch.isDigit = true) :
    ∃ m, decodeKeypad table btns = .ok m ∧
      m.length = ((resolvedDigits table btns).dedup).length ∧
      m.length < 10 ∧
      ((∃ d, build_encoded_password pw m = .error (.noMapping d)) ↔
        ∃ ch ∈ pw.data, (ch.toNat - 48) ∉ keysAL m) ∧
      (∀ (c a f t : String) (env : NetEnv) (bv : String) (d : Nat),
        pyIsDigit c = true → pyIsDigit pw = true → pw.length = 8 →
        env.login1Status < 400 → env.brsMit = some bv →
        env.login2Status < 400 → env.clavierStatus < 400 →
        decodeKeypad B64_SVG_LEN_MAP env.clavierButtons = .ok m →
        build_encoded_password pw m = .error (.noMapping d) →
        pyMain false c pw a f t env = mkTrace (.encodeFailed (.noMapping d))) := by
  obtain ⟨m, he, hmem, hnd⟩ := decodeLoop_all_images table btns [] none himg
  have hnodup : (keysAL m).Nodup := hnd (by simp [keysAL])
  have hmemR : ∀ d, d ∈ keysAL m ↔ d ∈ resolvedDigits table btns := by
    intro d
    rw [hmem d]
    simp [keysAL]
  have h1 : (keysAL m).toFinset = ((resolvedDigits table btns).dedup).toFinset := by
    ext d
    simp [List.mem_toFinset, hmemR d, List.mem_dedup]
  have h2 : (keysAL m).toFinset.card = (keysAL m).length :=
    List.toFinset_card_of_nodup hnodup
  have h4 : ((resolvedDigits table btns).dedup).toFinset.card =
      ((resolvedDigits table btns).dedup).length :=
    List.toFinset_card_of_nodup (List.nodup_dedup _)
  have hlen : m.length = ((resolvedDigits table btns).dedup).length := by
    rw [(List.length_map _ _).symm.trans rfl]
    calc (keysAL m).length = (keysAL m).toFinset.card := h2.symm
      _ = ((resolvedDigits table btns).dedup).toFinset.card := by rw [h1]
      _ = ((resolvedDigits table btns).dedup).length := h4
  refine ⟨m, he, hlen, hlen ▸ hsz, build_encoded_password_error_iff pw m hpw, ?_⟩
  intro c a f t env bv d hc hp h8 hl1 hbrs hl2 hl3 hdec henc
  exact pyMain_encode_error c pw a f t env bv m (.noMapping d)
    hc hp h8 hl1 hbrs hl2 hl3 hdec henc

/-- Witness for C4: a fragment resolving only digits 1 and 2 (one key has an
    unknown signature), and the PIN "19" whose digit 9 is absent. -/
theorem degraded_mapping_encode_fails_late_witness :
    (∀ b ∈ partialButtons, b.img.isSome = true) ∧
    ((resolvedDigits B64_SVG_LEN_MAP partialButtons).dedup).length < 10 ∧
    (∀ ch ∈ ("19" : String).data, ch.isDigit = true) ∧
    (∃ m, decodeKeypad B64_SVG_LEN_MAP partialButtons = .ok m ∧
      m.length = ((resolvedDigits B64_SVG_LEN_MAP partialButtons).dedup).length ∧
      m.length < 10 ∧
      ((∃ d, build_encoded_password "19" m = .error (.noMapping d)) ↔
        ∃ ch ∈ ("19" : String).data, (ch.toNat - 48) ∉ keysAL m) ∧
      (∀ (c a f t : String) (env : NetEnv) (bv : String) (d : Nat),
        pyIsDigit c = true → pyIsDigit "19" = true → ("19" : String).length = 8 →
        env.login1Status < 400 → env.brsMit = some bv →
        env.login2Status < 400 → env.clavierStatus < 400 →
        decodeKeypad B64_SVG_LEN_MAP env.clavierButtons = .ok m →
        build_encoded_password "19" m = .error (.noMapping d) →
        pyMain false c "19" a f t env = mkTrace (.encodeFailed (.noMapping d)))) :=
  ⟨by decide, by decide, by decide,
    degraded_mapping_encode_fails_late B64_SVG_LEN_MAP partialButtons "19"
      (by decide) (by decide) (by decide)⟩

/-- Claim C9: in the keypad decode loop, a clickable key without a nested image
    is not skipped — the `path_len` variable keeps the previous key's value, so
    the key is resolved with the previous key's image signature and its label
    overwrites that digit's entry; and when the very first key has no image, the
    decode raises an unhandled NameError. -/
theorem keypad_loop_stale_signature
    (table : List (Nat × Nat)) (b1 b2 c : KeypadButton) (cs : List KeypadButton)
    (s : String) (d : Nat)
    (h1 : b1.img = some s) (h2 : b2.img = none)
    (hd : svgLenLookup table s.length = some d)
    (hc : c.img = none) :
    (∃ m, decodeKeypad table [b1, b2] = .ok m ∧ lookupAL m d = some b2.matrixKey) ∧
    decodeKeypad table (c :: cs) = .error .nameError := by
  constructor
  · refine ⟨insertAL (insertAL [] d b1.matrixKey) d b2.matrixKey, ?_,
      lookupAL_insertAL_self _ _ _⟩
    simp [decodeKeypad, decodeLoop, h1, h2, hd]
  · simp [decodeKeypad, decodeLoop, hc]

/-- Witness for C9: key "G1" carries digit 1's image, key "G2" has no image and
    steals its signature; a fragment starting with an imageless key raises. -/
theorem keypad_loop_stale_signature_witness :
    (∃ m, decodeKeypad B64_SVG_LEN_MAP
        [⟨"G1", some (strOfLen 259)⟩, ⟨"G2", none⟩] = .ok m ∧
      lookupAL m 1 = some "G2") ∧
    decodeKeypad B64_SVG_LEN_MAP [(⟨"GX", none⟩ : KeypadButton)] = .error .nameError :=
  keypad_loop_stale_signature B64_SVG_LEN_MAP ⟨"G1", some (strOfLen 259)⟩
    ⟨"G2", none⟩ ⟨"GX", none⟩ [] (strOfLen 259) 1 rfl rfl (by decide) rfl

/-- Claim C1: for every keypad mapping assigning a label to each digit of a PIN
    and every PIN string of digits, the Credential Encoder produces the labels of
    the PIN's digits in left-to-right order joined with the "|" delimiter — one
    element per digit, the i-th element being the mapping's label for the i-th
    digit — and in particular PIN "12345678" with the AAA..HHH mapping encodes to
    "AAA|BBB|CCC|DDD|EEE|FFF|GGG|HHH". -/
theorem credential_encoder_roundtrip
    (pw : String) (m : List (Nat × String))
    (hdig : ∀ ch ∈ pw.data, ch.isDigit = true)
    (hmap : ∀ ch ∈ pw.data, (lookupAL m (ch.toNat - 48)).isSome = true) :
    ∃ gs, build_groups m pw.data = .ok gs ∧
      build_encoded_password pw m = .ok (String.intercalate "|" gs) ∧
      gs.length = pw.data.length ∧
      (∀ i : Nat, gs.get? i = (pw.data.get? i).bind (fun ch => lookupAL m (ch.toNat - 48))) ∧
      build_encoded_password "12345678" exampleMapping =
        .ok "AAA|BBB|CCC|DDD|EEE|FFF|GGG|HHH" := by
  obtain ⟨gs, hgs, hlen, hget⟩ := build_groups_ok_spec m pw.data hdig hmap
  exact ⟨gs, hgs, by simp [build_encoded_password, hgs, Except.map], hlen, hget, rfl⟩

/-- Witness for C1: the spec's end-to-end scenario. -/
theorem credential_encoder_roundtrip_witness :
    (∀ ch ∈ ("12345678" : String).data, ch.isDigit = true) ∧
    (∀ ch ∈ ("12345678" : String).data,
      (lookupAL exampleMapping (ch.toNat - 48)).isSome = true) ∧
    (∃ gs, build_groups exampleMapping ("12345678" : String).data = .ok gs ∧
      build_encoded_password "12345678" exampleMapping =
        .ok (String.intercalate "|" gs) ∧
      gs.length = ("12345678" : String).data.length ∧
      (∀ i : Nat, gs.get? i = (("12345678" : String).data.get? i).bind
        (fun ch => lookupAL exampleMapping (ch.toNat - 48))) ∧
      build_encoded_password "12345678" exampleMapping =
        .ok "AAA|BBB|CCC|DDD|EEE|FFF|GGG|HHH") :=
  ⟨by decide, by decide,
    credential_encoder_roundtrip "12345678" exampleMapping (by decide) (by decide)⟩

/-- Claim C2 counterexample: with no token in the login page markup the token
    extractor returns none, yet the very same run proceeds through submission,
    account discovery and export, finishing and writing output — so a missing
    token is not treated as fatal and the run does proceed to later stages. -/
theorem token_missing_run_proceeds_cex :
    extract_token_from_login
        ({ goodEnv with login2Inputs := [] } : NetEnv).login2Inputs = none ∧
    (pyMain false "123" "12345678" "X" "20250101" "20250131"
        { goodEnv with login2Inputs := [] }).outcome =
      .finished "boursorama_transactions_ACC123_20250101_20250131.csv" ∧
    (pyMain false "123" "12345678" "X" "20250101" "20250131"
        { goodEnv with login2Inputs := [] }).exportAttempted = true :=
  ⟨by decide, by decide, by decide⟩

/-- Claim C2 (amended): a missing login token is only logged as a diagnostic;
    the run is not aborted and proceeds to the submission stage (and beyond)
    with the absent token. -/
theorem token_missing_logged_not_fatal
    (c p a f t : String) (env : NetEnv) (bv : String) (m : List (Nat × String)) (enc : String)
    (hc : pyIsDigit c = true) (hp : pyIsDigit p = true) (h8 : p.length = 8)
    (h1 : env.login1Status < 400) (hbrs : env.brsMit = some bv)
    (h2 : env.login2Status < 400) (h3 : env.clavierStatus < 400)
    (hdec : decodeKeypad B64_SVG_LEN_MAP env.clavierButtons = .ok m)
    (henc : build_encoded_password p m = .ok enc)
    (htok : extract_token_from_login env.login2Inputs = none) :
    pyMain false c p a f t env = loginStage a f t env :=
  pyMain_reaches_login c p a f t env bv m enc hc hp h8 h1 hbrs h2 h3 hdec henc

/-- Witness for amended C2. -/
theorem token_missing_logged_not_fatal_witness :
    extract_token_from_login
        ({ goodEnv with login2Inputs := [] } : NetEnv).login2Inputs = none ∧
    pyMain false "123" "12345678" "X" "f" "t" { goodEnv with login2Inputs := [] } =
      loginStage "X" "f" "t" { goodEnv with login2Inputs := [] } :=
  ⟨by decide,
    token_missing_logged_not_fatal "123" "12345678" "X" "f" "t"
      { goodEnv with login2Inputs := [] } "BRSMIT" goodMapping
      "KEY1|KEY2|KEY3|KEY4|KEY5|KEY6|KEY7|KEY8" (by decide) (by decide) (by decide)
      (by decide) (by decide) (by decide) (by decide) rfl rfl
      rfl⟩

/-- Claim C3 counterexample: the caller supplies the non-empty account "CALLER",
    yet the run's export uses the identifier "ACC123" discovered on the budget
    page — the budget page is consulted and its value overrides the
    caller-supplied identifier, contradicting "uses the caller-supplied account
    identifier whenever one is present". -/
theorem account_resolver_override_cex :
    ("CALLER" : String) ≠ "" ∧
    resolveAccount "CALLER" 200 (some (some "ACC123")) none = "ACC123" ∧
    (pyMain false "123" "12345678" "CALLER" "f" "t" goodEnv).exportAccount =
      some "ACC123" :=
  ⟨by decide, by decide, by decide⟩

/-- Claim C3 (amended): the Account Resolver starts from the caller-supplied
    identifier but always consults the budget-summary page when it answers 200:
    a truthy account-selector value overrides the caller's identifier, and
    failing that a truthy first-option value overrides it too; the caller's
    identifier is used only when the budget page yields neither; an empty
    resolved identifier is fatal before the export step, and the export step
    never runs with an empty identifier. -/
theorem account_resolver_budget_overrides
    (c p a f t : String) (env : NetEnv) (bv : String) (m : List (Nat × String)) (enc : String)
    (hc : pyIsDigit c = true) (hp : pyIsDigit p = true) (h8 : p.length = 8)
    (h1 : env.login1Status < 400) (hbrs : env.brsMit = some bv)
    (h2 : env.login2Status < 400) (h3 : env.clavierStatus < 400)
    (hdec : decodeKeypad B64_SVG_LEN_MAP env.clavierButtons = .ok m)
    (henc : build_encoded_password p m = .ok enc)
    (hpost : env.postStatus = 200 ∨ env.postStatus = 302) :
    (∀ v, env.budgetStatus = 200 →
      attrTruthy env.budgetAccInput.join = some v →
      resolveAccount a env.budgetStatus env.budgetAccInput env.budgetFirstOption = v) ∧
    (∀ v, env.budgetStatus = 200 →
      attrTruthy env.budgetAccInput.join = none →
      attrTruthy env.budgetFirstOption.join = some v →
      resolveAccount a env.budgetStatus env.budgetAccInput env.budgetFirstOption = v) ∧
    (attrTruthy env.budgetAccInput.join = none →
      attrTruthy env.budgetFirstOption.join = none →
      resolveAccount a env.budgetStatus env.budgetAccInput env.budgetFirstOption = a) ∧
    (resolveAccount a env.budgetStatus env.budgetAccInput env.budgetFirstOption = "" →
      pyMain false c p a f t env = mkTrace .noAccount) ∧
    (∀ (dr : Bool) (c2 p2 a2 f2 t2 : String) (env2 : NetEnv),
      (pyMain dr c2 p2 a2 f2 t2 env2).exportAttempted = true →
      ∃ acct, (pyMain dr c2 p2 a2 f2 t2 env2).exportAccount = some acct ∧ acct ≠ "") := by
  refine ⟨?_, ?_, ?_, ?_, ?_⟩
  · intro v h200 hv
    unfold resolveAccount
    rw [if_pos h200, hv]
  · intro v h200 hv1 hv2
    unfold resolveAccount
    rw [if_pos h200, hv1, hv2]
  · intro hv1 hv2
    unfold resolveAccount
    by_cases hst : env.budgetStatus = 200
    · rw [if_pos hst, hv1, hv2]
    · rw [if_neg hst]
  · intro hE
    rw [pyMain_reaches_login c p a f t env bv m enc hc hp h8 h1 hbrs h2 h3 hdec henc,
      loginStage_post_ok a f t env hpost, accountStage_empty a f t env hE]
  · exact fun dr c2 p2 a2 f2 t2 env2 h => pyMain_export_nonempty dr c2 p2 a2 f2 t2 env2 h

/-- Witness for amended C3. -/
theorem account_resolver_budget_overrides_witness :
    (∀ v, goodEnv.budgetStatus = 200 →
      attrTruthy goodEnv.budgetAccInput.join = some v →
      resolveAccount "CALLER" goodEnv.budgetStatus goodEnv.budgetAccInput
        goodEnv.budgetFirstOption = v) ∧
    (∀ v, goodEnv.budgetStatus = 200 →
      attrTruthy goodEnv.budgetAccInput.join = none →
      attrTruthy goodEnv.budgetFirstOption.join = some v →
      resolveAccount "CALLER" goodEnv.budgetStatus goodEnv.budgetAccInput
        goodEnv.budgetFirstOption = v) ∧
    (attrTruthy goodEnv.budgetAccInput.join = none →
      attrTruthy goodEnv.budgetFirstOption.join = none →
      resolveAccount "CALLER" goodEnv.budgetStatus goodEnv.budgetAccInput
        goodEnv.budgetFirstOption = "CALLER") ∧
    (resolveAccount "CALLER" goodEnv.budgetStatus goodEnv.budgetAccInput
        goodEnv.budgetFirstOption = "" →
      pyMain false "123" "12345678" "CALLER" "f" "t" goodEnv = mkTrace .noAccount) ∧
    (∀ (dr : Bool) (c2 p2 a2 f2 t2 : String) (env2 : NetEnv),
      (pyMain dr c2 p2 a2 f2 t2 env2).exportAttempted = true →
      ∃ acct, (pyMain dr c2 p2 a2 f2 t2 env2).exportAccount = some acct ∧ acct ≠ "") :=
  account_resolver_budget_overrides "123" "12345678" "CALLER" "f" "t" goodEnv "BRSMIT"
    goodMapping "KEY1|KEY2|KEY3|KEY4|KEY5|KEY6|KEY7|KEY8" (by decide) (by decide)
    (by decide) (by decide) (by decide) (by decide) (by decide) rfl rfl
    (by decide)

/-- Claim C6: the Authentication Submitter declares success exactly on HTTP 200
    or 302; any other status is an authentication failure carrying the first 400
    characters of the response body, and on such a failure the export step is
    never attempted (the run aborts with nothing written). -/
theorem auth_submitter_status_policy
    (c p a f t : String) (env : NetEnv) (bv : String) (m : List (Nat × String)) (enc : String)
    (hc : pyIsDigit c = true) (hp : pyIsDigit p = true) (h8 : p.length = 8)
    (h1 : env.login1Status < 400) (hbrs : env.brsMit = some bv)
    (h2 : env.login2Status < 400) (h3 : env.clavierStatus < 400)
    (hdec : decodeKeypad B64_SVG_LEN_MAP env.clavierButtons = .ok m)
    (henc : build_encoded_password p m = .ok enc) :
    (¬(env.postStatus = 200 ∨ env.postStatus = 302) →
      pyMain false c p a f t env = mkTrace (.loginFailed (env.postBody.take 400))) ∧
    ((env.postStatus = 200 ∨ env.postStatus = 302) →
      ∀ s, (pyMain false c p a f t env).outcome ≠ .loginFailed s) := by
  constructor
  · intro hpost
    rw [pyMain_reaches_login c p a f t env bv m enc hc hp h8 h1 hbrs h2 h3 hdec henc,
      loginStage_post_fail a f t env hpost]
  · intro hpost s
    rw [pyMain_reaches_login c p a f t env bv m enc hc hp h8 h1 hbrs h2 h3 hdec henc,
      loginStage_post_ok a f t env hpost]
    exact accountStage_not_loginFailed a f t env s

/-- Witness for C6: a submission answered with HTTP 500. -/
theorem auth_submitter_status_policy_witness :
    (¬(({ goodEnv with postStatus := 500, postBody := "srv" } : NetEnv).postStatus = 200 ∨
        ({ goodEnv with postStatus := 500, postBody := "srv" } : NetEnv).postStatus = 302) →
      pyMain false "123" "12345678" "X" "f" "t"
          { goodEnv with postStatus := 500, postBody := "srv" } =
        mkTrace (.loginFailed
          (({ goodEnv with postStatus := 500, postBody := "srv" } : NetEnv).postBody.take 400))) ∧
    ((({ goodEnv with postStatus := 500, postBody := "srv" } : NetEnv).postStatus = 200 ∨
        ({ goodEnv with postStatus := 500, postBody := "srv" } : NetEnv).postStatus = 302) →
      ∀ s, (pyMain false "123" "12345678" "X" "f" "t"
          { goodEnv with postStatus := 500, postBody := "srv" }).outcome ≠
        .loginFailed s) :=
  auth_submitter_status_policy "123" "12345678" "X" "f" "t"
    { goodEnv with postStatus := 500, postBody := "srv" } "BRSMIT" goodMapping
    "KEY1|KEY2|KEY3|KEY4|KEY5|KEY6|KEY7|KEY8" (by decide) (by decide) (by decide)
    (by decide) (by decide) (by decide) (by decide) rfl rfl

/-- Claim C7 counterexample: a 200-status export response with a non-tabular
    content type whose body starts with a newline and then "<" — the body does
    not start with "<", so the claim says it is accepted, yet the code strips the
    body first and rejects it as a disguised error page. -/
theorem export_fetcher_leading_whitespace_cex :
    ({ goodEnv with csvContentType := "text/html", csvBody := "\n<html>" } : NetEnv).csvStatus
      = 200 ∧
    pyStartsWith "\n<html>" "<" = false ∧
    strContains "text/html" "text/csv" = false ∧
    (pyMain false "123" "12345678" "X" "f" "t"
        { goodEnv with csvContentType := "text/html", csvBody := "\n<html>" }).outcome =
      .csvRejectedHtml ∧
    (pyMain false "123" "12345678" "X" "f" "t"
        { goodEnv with csvContentType := "text/html", csvBody := "\n<html>" }).csvParsed =
      false :=
  ⟨by decide, by decide, by decide, by decide, by decide⟩

/-- Claim C7 (amended): the Export Fetcher treats any status other than 200 as a
    fetch failure (carrying a 500-character snippet); it rejects a 200 response
    whose declared content type does not contain "text/csv" and whose
    whitespace-stripped body begins with "<" as a disguised error page; it
    accepts a 200 response with a tabular content type or whose stripped body
    does not start with "<", and only an accepted response is handed on for
    parsing. -/
theorem export_fetcher_validation
    (c p a f t : String) (env : NetEnv) (bv : String) (m : List (Nat × String)) (enc : String)
    (hc : pyIsDigit c = true) (hp : pyIsDigit p = true) (h8 : p.length = 8)
    (h1 : env.login1Status < 400) (hbrs : env.brsMit = some bv)
    (h2 : env.login2Status < 400) (h3 : env.clavierStatus < 400)
    (hdec : decodeKeypad B64_SVG_LEN_MAP env.clavierButtons = .ok m)
    (henc : build_encoded_password p m = .ok enc)
    (hpost : env.postStatus = 200 ∨ env.postStatus = 302)
    (hacct : resolveAccount a env.budgetStatus env.budgetAccInput env.budgetFirstOption ≠ "") :
    (env.csvStatus ≠ 200 →
      pyMain false c p a f t env =
        { outcome := .csvFailed (env.csvBody.take 500), exportAttempted := true,
          exportAccount := some (resolveAccount a env.budgetStatus env.budgetAccInput
            env.budgetFirstOption),
          csvParsed := false, outputWritten := none, timestampWritten := false }) ∧
    (env.csvStatus = 200 → strContains env.csvContentType "text/csv" = false →
      pyStartsWith (pyStrip env.csvBody) "<" = true →
      pyMain false c p a f t env =
        { outcome := .csvRejectedHtml, exportAttempted := true,
          exportAccount := some (resolveAccount a env.budgetStatus env.budgetAccInput
            env.budgetFirstOption),
          csvParsed := false, outputWritten := none, timestampWritten := false }) ∧
    (env.csvStatus = 200 →
      (strContains env.csvContentType "text/csv" = true ∨
        pyStartsWith (pyStrip env.csvBody) "<" = false) →
      (pyMain false c p a f t env).csvParsed = true ∧
      (pyMain false c p a f t env).outcome =
        .finished (outFileName (resolveAccount a env.budgetStatus env.budgetAccInput
          env.budgetFirstOption) f t)) := by
  have hred : pyMain false c p a f t env =
      csvStage (resolveAccount a env.budgetStatus env.budgetAccInput env.budgetFirstOption)
        f t env := by
    rw [pyMain_reaches_login c p a f t env bv m enc hc hp h8 h1 hbrs h2 h3 hdec henc,
      loginStage_post_ok a f t env hpost, accountStage_nonempty a f t env hacct]
  refine ⟨?_, ?_, ?_⟩
  · intro hS
    rw [hred, csvStage_fail_status _ _ _ _ hS]
  · intro hS hct hlt
    rw [hred, csvStage_reject_html _ _ _ _ hS hct hlt]
  · intro hS hok
    rw [hred, csvStage_accept _ _ _ _ hS hok]
    exact ⟨rfl, rfl⟩

/-- Witness for amended C7: the all-good environment's export is accepted. -/
theorem export_fetcher_validation_witness :
    (goodEnv.csvStatus ≠ 200 →
      pyMain false "123" "12345678" "X" "f" "t" goodEnv =
        { outcome := .csvFailed (goodEnv.csvBody.take 500), exportAttempted := true,
          exportAccount := some (resolveAccount "X" goodEnv.budgetStatus
            goodEnv.budgetAccInput goodEnv.budgetFirstOption),
          csvParsed := false, outputWritten := none, timestampWritten := false }) ∧
    (goodEnv.csvStatus = 200 → strContains goodEnv.csvContentType "text/csv" = false →
      pyStartsWith (pyStrip goodEnv.csvBody) "<" = true →
      pyMain false "123" "12345678" "X" "f" "t" goodEnv =
        { outcome := .csvRejectedHtml, exportAttempted := true,
          exportAccount := some (resolveAccount "X" goodEnv.budgetStatus
            goodEnv.budgetAccInput goodEnv.budgetFirstOption),
          csvParsed := false, outputWritten := none, timestampWritten := false }) ∧
    (goodEnv.csvStatus = 200 →
      (strContains goodEnv.csvContentType "text/csv" = true ∨
        pyStartsWith (pyStrip goodEnv.csvBody) "<" = false) →
      (pyMain false "123" "12345678" "X" "f" "t" goodEnv).csvParsed = true ∧
      (pyMain false "123" "12345678" "X" "f" "t" goodEnv).outcome =
        .finished (outFileName (resolveAccount "X" goodEnv.budgetStatus
          goodEnv.budgetAccInput goodEnv.budgetFirstOption) "f" "t")) :=
  export_fetcher_validation "123" "12345678" "X" "f" "t" goodEnv "BRSMIT" goodMapping
    "KEY1|KEY2|KEY3|KEY4|KEY5|KEY6|KEY7|KEY8" (by decide) (by decide) (by decide)
    (by decide) (by decide) (by decide) (by decide) rfl rfl (by decide) (by decide)

/-- Claim C8: if the export fetch fails after a successful login — a non-success
    status, or a 200 response rejected as a disguised error page — the run aborts
    without writing any output file and without updating the last-run timestamp;
    no partial success. -/
theorem export_failure_no_partial_success
    (c p a f t : String) (env : NetEnv) (bv : String) (m : List (Nat × String)) (enc : String)
    (hc : pyIsDigit c = true) (hp : pyIsDigit p = true) (h8 : p.length = 8)
    (h1 : env.login1Status < 400) (hbrs : env.brsMit = some bv)
    (h2 : env.login2Status < 400) (h3 : env.clavierStatus < 400)
    (hdec : decodeKeypad B64_SVG_LEN_MAP env.clavierButtons = .ok m)
    (henc : build_encoded_password p m = .ok enc)
    (hpost : env.postStatus = 200 ∨ env.postStatus = 302)
    (hacct : resolveAccount a env.budgetStatus env.budgetAccInput env.budgetFirstOption ≠ "")
    (hfail : env.csvStatus ≠ 200 ∨
      (strContains env.csvContentType "text/csv" = false ∧
        pyStartsWith (pyStrip env.csvBody) "<" = true)) :
    (pyMain false c p a f t env).outputWritten = none ∧
    (pyMain false c p a f t env).timestampWritten = false ∧
    ((pyMain false c p a f t env).outcome = .csvFailed (env.csvBody.take 500) ∨
      (pyMain false c p a f t env).outcome = .csvRejectedHtml) := by
  have hred : pyMain false c p a f t env =
      csvStage (resolveAccount a env.budgetStatus env.budgetAccInput env.budgetFirstOption)
        f t env := by
    rw [pyMain_reaches_login c p a f t env bv m enc hc hp h8 h1 hbrs h2 h3 hdec henc,
      loginStage_post_ok a f t env hpost, accountStage_nonempty a f t env hacct]
  rcases hfail with hS | ⟨hct, hlt⟩
  · rw [hred, csvStage_fail_status _ _ _ _ hS]
    exact ⟨rfl, rfl, Or.inl rfl⟩
  · by_cases hS : env.csvStatus = 200
    · rw [hred, csvStage_reject_html _ _ _ _ hS hct hlt]
      exact ⟨rfl, rfl, Or.inr rfl⟩
    · rw [hred, csvStage_fail_status _ _ _ _ hS]
      exact ⟨rfl, rfl, Or.inl rfl⟩

/-- Witness for C8: a login that succeeded followed by an export answered 404. -/
theorem export_failure_no_partial_success_witness :
    (pyMain false "123" "12345678" "X" "f" "t"
        { goodEnv with csvStatus := 404, csvBody := "not found" }).outputWritten = none ∧
    (pyMain false "123" "12345678" "X" "f" "t"
        { goodEnv with csvStatus := 404, csvBody := "not found" }).timestampWritten = false ∧
    ((pyMain false "123" "12345678" "X" "f" "t"
        { goodEnv with csvStatus := 404, csvBody := "not found" }).outcome =
      .csvFailed (({ goodEnv with csvStatus := 404, csvBody := "not found" } : NetEnv).csvBody.take 500) ∨
      (pyMain false "123" "12345678" "X" "f" "t"
        { goodEnv with csvStatus := 404, csvBody := "not found" }).outcome =
      .csvRejectedHtml) :=
  export_failure_no_partial_success "123" "12345678" "X" "f" "t"
    { goodEnv with csvStatus := 404, csvBody := "not found" } "BRSMIT" goodMapping
    "KEY1|KEY2|KEY3|KEY4|KEY5|KEY6|KEY7|KEY8" (by decide) (by decide) (by decide)
    (by decide) (by decide) (by decide) (by decide) rfl rfl (by decide) (by decide)
    (Or.inl (by decide))

/-- Claim C10: every invocation of the script entry point calls
    datetime.fromisoformat on a datetime object rather than a string in its
    startup diagnostics, which raises a TypeError before the argument-count
    validation, before the 30-day throttle check, and before `main` (hence any
    network activity) is reached — for every argv, every save-file state and
    every ISO-parsing behavior. -/
theorem driver_fromisoformat_type_error
    (parseIso : String → Except Unit Int) (env : DriverEnv) :
    driverMain parseIso env =
      { raised := some .typeError, argvChecked := false, throttleChecked := false,
        mainCalled := false } :=
  rfl
